import Mathlib

/-!
Verification development for a small production-management service
(Go + PostgreSQL): a JSON/HTML CRUD server over products, materials,
product types, workshops and product-workshop links, plus a one-shot
spreadsheet importer.

The Go code is shallowly embedded: SQL `DECIMAL` values are modelled by
`ℚ`, database tables by lists of records, fallible database calls by
explicit fault oracles, and Go library routines (`strings.TrimSpace`,
`strings.ReplaceAll`, `strconv.ParseFloat`, `fmt.Sscanf` with a `%d`
verb, SQL `LOWER`) by structural functions with the same behaviour on
the inputs of interest.
-/

/-- Decidable equality on `Except`, so that concrete runs of the
fallible operations can be checked by evaluation. -/
instance exceptDecidableEq {ε α : Type} [DecidableEq ε] [DecidableEq α] :
    DecidableEq (Except ε α) := fun x y =>
  match x, y with
  | Except.ok a, Except.ok b =>
      if h : a = b then isTrue (by rw [h]) else isFalse (by intro hc; cases hc; exact h rfl)
  | Except.error a, Except.error b =>
      if h : a = b then isTrue (by rw [h]) else isFalse (by intro hc; cases hc; exact h rfl)
  | Except.ok _, Except.error _ => isFalse (by intro hc; cases hc)
  | Except.error _, Except.ok _ => isFalse (by intro hc; cases hc)

/-- Model of Go `strings.TrimSpace`: drop leading and trailing
whitespace characters. -/
def goTrimSpace (s : String) : String :=
  ⟨((s.data.dropWhile Char.isWhitespace).reverse.dropWhile Char.isWhitespace).reverse⟩

/-- Model of Go `strings.ReplaceAll s "," "."`: the pattern is a single
character, so the call rewrites every comma to a dot. -/
def commaToDot (s : String) : String :=
  ⟨s.data.map (fun c => if c = ',' then '.' else c)⟩

/-- Model of Go `strings.ReplaceAll s " " ""`: the pattern is a single
character and the replacement empty, so the call deletes every space. -/
def dropSpaces (s : String) : String :=
  ⟨s.data.filter (fun c => ¬ c = ' ')⟩

/-- Model of SQL `LOWER` / Go `strings.ToLower`: lower-case every
character. -/
def goToLower (s : String) : String :=
  ⟨s.data.map Char.toLower⟩

/-- Value of a list of decimal digit characters. -/
def digitsToNat (ds : List Char) : Nat :=
  ds.foldl (fun acc c => acc * 10 + (c.toNat - ('0').toNat)) 0

/-- Model of Go `strconv.ParseFloat` on plain decimal inputs (the only
shape the importer feeds it): optional sign, an integer part and an
optional fractional part, with at least one digit overall; the value is
returned exactly, as a rational (`mkRat n (10 ^ k)` is the exact decimal
value, division by the power of ten). Inputs with no digit (such as `"."`
or `","` rewritten to `"."`) are rejected, as `ParseFloat` rejects
them. -/
def parseFloatQ (s : String) : Option ℚ :=
  let step1 : Bool × List Char :=
    match s.data with
    | '-' :: r => (true, r)
    | '+' :: r => (false, r)
    | cs => (false, cs)
  let neg := step1.1
  let cs := step1.2
  let withSign : Int → Int := fun n => if neg then -n else n
  let intPart := cs.takeWhile Char.isDigit
  match cs.dropWhile Char.isDigit with
  | [] =>
      if intPart.isEmpty then none
      else some (mkRat (withSign (digitsToNat intPart)) 1)
  | '.' :: fracCs =>
      let fracPart := fracCs.takeWhile Char.isDigit
      if fracCs.dropWhile Char.isDigit = [] ∧ ¬ (intPart = [] ∧ fracPart = []) then
        some (mkRat
          (withSign (digitsToNat intPart * 10 ^ fracPart.length + digitsToNat fracPart))
          (10 ^ fracPart.length))
      else none
  | _ => none

/-- `parseDecimal` from the importer: trim the input, rewrite commas to
dots, delete spaces; an empty remainder parses as `0` with no error,
anything else goes through `ParseFloat`. -/
def parseDecimal (s : String) : Except String ℚ :=
  let s1 := goTrimSpace s
  let s2 := commaToDot s1
  let s3 := dropSpaces s2
  if s3 = "" then Except.ok 0
  else
    match parseFloatQ s3 with
    | some v => Except.ok v
    | none => Except.error "invalid number"

/-- A row of the `materials` reference table. -/
structure Material where
  id : Int
  material_name : String
deriving DecidableEq, Repr

/-- A row of the `products_types` reference table. -/
structure ProductType where
  id : Int
  type_name : String
deriving DecidableEq, Repr

/-- `getMaterialID` from the importer: `SELECT id FROM materials WHERE
LOWER(material_name) = LOWER($1)` through `QueryRow`, which yields the
first matching row; zero matching rows surface as `pgx.ErrNoRows`,
reported as a dedicated not-found error. -/
def getMaterialID (mats : List Material) (materialName : String) : Except String Int :=
  match mats.find? (fun m => goToLower m.material_name = goToLower materialName) with
  | some m => Except.ok m.id
  | none => Except.error "material not found"

/-- `getTypeID` from the importer: same shape as `getMaterialID` over
`products_types`. -/
def getTypeID (types : List ProductType) (typeName : String) : Except String Int :=
  match types.find? (fun t => goToLower t.type_name = goToLower typeName) with
  | some t => Except.ok t.id
  | none => Except.error "type not found"

/-- `CreateProductInput`: the column set of a `products` insert
(`product_name, material_id, type_id, min_price, article`). -/
structure CreateProductInput where
  product_name : String
  material_id : Int
  type_id : Int
  min_price : ℚ
  article : String
deriving DecidableEq, Repr

/-- One iteration of the importer's row loop (header row excluded): a
row with fewer than five columns is rejected; otherwise column 1 is the
product name, 4 the material name, 2 the article, 0 the type name and 3
the price; price parsing, the two name lookups and the insert each
reject the row on failure. `insertFault` injects a failing insert.
`none` means the row was counted as an error, `some` carries the
inserted column values. -/
def processRow (mats : List Material) (types : List ProductType)
    (insertFault : Bool) (row : List String) : Option CreateProductInput :=
  if row.length < 5 then none
  else
    let productName := goTrimSpace (row.getD 1 "")
    let materialName := goTrimSpace (row.getD 4 "")
    let article := goTrimSpace (row.getD 2 "")
    let typeName := goTrimSpace (row.getD 0 "")
    match parseDecimal (row.getD 3 "") with
    | Except.error _ => none
    | Except.ok minPrice =>
      match getMaterialID mats materialName with
      | Except.error _ => none
      | Except.ok materialID =>
        match getTypeID types typeName with
        | Except.error _ => none
        | Except.ok typeID =>
          if insertFault then none
          else some ⟨productName, materialID, typeID, minPrice, article⟩

/-- The importer's `for i, row := range rows` loop: index 0 is the
header and is skipped; every other row bumps the success counter and
records the insert, or bumps the error counter, and the loop always
continues to the next row. `faults` injects per-row insert failures.
Returns (successCount, errorCount, inserted rows in order). -/
def importLoop (mats : List Material) (types : List ProductType)
    (faults : Nat → Bool) : Nat → List (List String) → Nat × Nat × List CreateProductInput
  | _, [] => (0, 0, [])
  | i, row :: rest =>
    if i = 0 then importLoop mats types faults (i + 1) rest
    else
      match processRow mats types (faults i) row with
      | some p =>
        let r := importLoop mats types faults (i + 1) rest
        (r.1 + 1, r.2.1, p :: r.2.2)
      | none =>
        let r := importLoop mats types faults (i + 1) rest
        (r.1, r.2.1 + 1, r.2.2)

/-- The importer's batch run over the rows of the first sheet. -/
def runImport (mats : List Material) (types : List ProductType)
    (faults : Nat → Bool) (rows : List (List String)) : Nat × Nat × List CreateProductInput :=
  importLoop mats types faults 0 rows

/-- A row of the `products` table. -/
structure Product where
  id : Int
  product_name : String
  material_id : Int
  type_id : Int
  min_price : ℚ
  article : String
deriving DecidableEq, Repr

/-- A row of the `products_workshop` link table. -/
structure PWLink where
  id : Int
  product_id : Int
  workshop_id : Int
  production_time : ℚ
deriving DecidableEq, Repr

/-- The persisted database state: the tables the claims touch. -/
structure DB where
  products : List Product
  links : List PWLink
  materials : List Material
  productTypes : List ProductType
deriving DecidableEq, Repr

/-- `ProductWithTime`: the record scanned out of the aggregation query. -/
structure ProductWithTime where
  id : Int
  product_name : String
  material_name : String
  type_name : String
  min_price : ℚ
  article : String
  total_production_time : ℚ
deriving DecidableEq, Repr

/-- The `LEFT JOIN products_workshop pw ON pw.product_id = p.id` rows
for one product group: every matching link, or a single all-`NULL` row
when no link matches. -/
def leftJoinLinks (links : List PWLink) (pid : Int) : List (Option PWLink) :=
  let matched := links.filter (fun l => l.product_id = pid)
  if matched.isEmpty then [none] else matched.map some

/-- SQL `SUM` over one group: `NULL` when every input is `NULL` (in
particular over the single all-`NULL` row of an unmatched left join),
otherwise the sum of the non-`NULL` inputs. -/
def sqlSum (xs : List (Option ℚ)) : Option ℚ :=
  let vs := xs.filterMap id
  if vs.isEmpty then none else some vs.sum

/-- SQL `COALESCE(x, d)`. -/
def coalesceQ (x : Option ℚ) (d : ℚ) : ℚ :=
  x.getD d

/-- One output row of the aggregation query for product `p`: inner joins
to `materials` and `products_types` (the row is dropped when either
reference is missing), left join to the links, `GROUP BY` the product
columns, and `COALESCE(SUM(pw.production_time), 0)`. -/
def rowFor (db : DB) (p : Product) : Option ProductWithTime :=
  match db.materials.find? (fun m => m.id = p.material_id),
        db.productTypes.find? (fun t => t.id = p.type_id) with
  | some m, some t =>
      some ⟨p.id, p.product_name, m.material_name, t.type_name, p.min_price, p.article,
        coalesceQ (sqlSum ((leftJoinLinks db.links p.id).map
          (fun o => o.map (fun l => l.production_time)))) 0⟩
  | _, _ => none

/-- Insert a row into a list sorted by ascending product id. -/
def insertById (r : ProductWithTime) : List ProductWithTime → List ProductWithTime
  | [] => [r]
  | x :: xs => if r.id ≤ x.id then r :: x :: xs else x :: insertById r xs

/-- Sort the result rows by ascending product id (`ORDER BY p.id`). -/
def sortById (l : List ProductWithTime) : List ProductWithTime :=
  l.foldr insertById []

/-- `GetAllProducts`: the aggregation query over every product,
`ORDER BY p.id`. -/
def GetAllProducts (db : DB) : List ProductWithTime :=
  sortById (db.products.filterMap (rowFor db))

/-- The rows produced by the point-lookup variant of the aggregation
query (`WHERE p.id = $1`). -/
def productQueryRows (db : DB) (pid : Int) : List ProductWithTime :=
  (db.products.filter (fun p => p.id = pid)).filterMap (rowFor db)

/-- `GetProductByID`: `QueryRow` scans the first result row;
`pgx.ErrNoRows` (zero rows) is translated to `(nil, nil)` — a not-found
signal distinct from an error — and any other failure (injected through
`fault`) is returned as an error. -/
def GetProductByID (db : DB) (fault : Option String) (pid : Int) :
    Except String (Option ProductWithTime) :=
  match fault with
  | some m => Except.error m
  | none =>
    match (productQueryRows db pid).head? with
    | some r => Except.ok (some r)
    | none => Except.ok none

/-- The `(CommandTag, error)` pair returned by `pool.Exec`. -/
structure ExecResult where
  rowsAffected : Nat
  err : Option String
deriving DecidableEq, Repr

/-- `DELETE FROM products WHERE id = $1` through `pool.Exec`: on a
transport failure (injected through `fault`) nothing is deleted and the
zero-value command tag reports zero affected rows; otherwise the
matching product rows go away (links cascade per the schema) and the
tag counts them. -/
def execDelete (db : DB) (fault : Option String) (pid : Int) : DB × ExecResult :=
  match fault with
  | some m => (db, ⟨0, some m⟩)
  | none =>
      ({ db with
          products := db.products.filter (fun p => ¬ p.id = pid),
          links := db.links.filter (fun l => ¬ l.product_id = pid) },
        ⟨(db.products.filter (fun p => p.id = pid)).length, none⟩)

/-- The checks `DeleteById` performs on the `Exec` outcome, in source
order: the affected-row count is inspected first, the error value only
afterwards. -/
def deleteCheck (res : ExecResult) : Option String :=
  if res.rowsAffected = 0 then some "nothing deleted"
  else
    match res.err with
    | some _ => some "delete failed"
    | none => none

/-- Repository `DeleteById`: run the delete statement, then report per
`deleteCheck` (`none` is success). -/
def DeleteById (db : DB) (fault : Option String) (pid : Int) : DB × Option String :=
  let r := execDelete db fault pid
  (r.1, deleteCheck r.2)

/-- `WorkshopInput`: one `(workshop_id, production_time)` pair. -/
structure WorkshopInput where
  workshop_id : Int
  production_time : ℚ
deriving DecidableEq, Repr

/-- `CreateProductWithWorkshopsInput`: a product descriptor plus the
workshop pairs. -/
structure CreateProductWithWorkshopsInput where
  product_name : String
  material_id : Int
  type_id : Int
  min_price : ℚ
  article : String
  workshops : List WorkshopInput
deriving DecidableEq, Repr

/-- `CreateProduct`: single `INSERT ... RETURNING id` outside any
transaction; `fault` injects an insert failure, `newId` is the id the
sequence generates. -/
def CreateProduct (db : DB) (newId : Int) (fault : Bool) (input : CreateProductInput) :
    DB × Except String Int :=
  if fault then (db, Except.error "insert failed")
  else
    ({ db with products := db.products ++
        [⟨newId, input.product_name, input.material_id, input.type_id,
          input.min_price, input.article⟩] },
      Except.ok newId)

/-- Failure schedule for one run of the write-path transaction: at most
one step fails (`linkInsertFail k` fails the link insert with zero-based
index `k`, if the loop reaches it). -/
inductive TxFault
  | ok
  | beginFail
  | productInsertFail
  | linkInsertFail (k : Nat)
  | commitFail
deriving DecidableEq, Repr

/-- The link-insert loop of the transaction, buffering the rows it would
insert; it stops at the first failing insert. `base` seeds the generated
link ids, `k` is the index of the next pair. -/
def insertLinks (fault : TxFault) (base : Int) (pid : Int) :
    Nat → List WorkshopInput → Except String (List PWLink)
  | _, [] => Except.ok []
  | k, w :: ws =>
    if fault = TxFault.linkInsertFail k then Except.error "link insert failed"
    else
      match insertLinks fault base pid (k + 1) ws with
      | Except.error m => Except.error m
      | Except.ok rest =>
          Except.ok (⟨base + (k : Int), pid, w.workshop_id, w.production_time⟩ :: rest)

/-- `CreateProductWithWorkshops`: begin a transaction, insert the
product, insert each link, commit. Transactional writes are buffered and
only become part of the persisted `DB` at a successful commit; every
early return leaves the deferred `tx.Rollback` to discard the buffer, so
the persisted state is returned unchanged on every failure path. -/
def CreateProductWithWorkshops (db : DB) (newId linkIdBase : Int) (fault : TxFault)
    (input : CreateProductWithWorkshopsInput) : DB × Except String Int :=
  if fault = TxFault.beginFail then (db, Except.error "begin failed")
  else if fault = TxFault.productInsertFail then (db, Except.error "product insert failed")
  else
    match insertLinks fault linkIdBase newId 0 input.workshops with
    | Except.error m => (db, Except.error m)
    | Except.ok newLinks =>
      if fault = TxFault.commitFail then (db, Except.error "commit failed")
      else
        ({ db with
            products := db.products ++ [⟨newId, input.product_name, input.material_id,
              input.type_id, input.min_price, input.article⟩],
            links := db.links ++ newLinks },
          Except.ok newId)

/-- Model of `fmt.Sscanf(id, "%d", &productID)`: skip leading blanks,
read an optional sign and at least one digit (trailing characters are
left unread, which `Sscanf` does not treat as an error). `none` is the
scan error the handlers turn into a 400. -/
def sscanfInt (s : String) : Option Int :=
  let cs := s.data.dropWhile (fun c => c = ' ' ∨ c = '\t' ∨ c = '\n')
  let step : Bool × List Char :=
    match cs with
    | '-' :: r => (true, r)
    | '+' :: r => (false, r)
    | _ => (false, cs)
  let ds := step.2.takeWhile Char.isDigit
  if ds.isEmpty then none
  else some (if step.1 then -(digitsToNat ds : Int) else (digitsToNat ds : Int))

/-- HTTP methods used by the router. -/
inductive HttpMethod
  | GET
  | POST
  | DELETE
deriving DecidableEq, Repr

/-- The `/api` route group as registered in `main`. -/
def apiRoutes : List (HttpMethod × String) :=
  [(HttpMethod.GET, "/api/products"),
   (HttpMethod.GET, "/api/products/:id"),
   (HttpMethod.POST, "/api/products"),
   (HttpMethod.POST, "/api/products/with-workshops"),
   (HttpMethod.DELETE, "/api/products/:id")]

/-- The HTML routes registered in `main`. -/
def htmlRoutes : List (HttpMethod × String) :=
  [(HttpMethod.GET, "/"),
   (HttpMethod.GET, "/products/new"),
   (HttpMethod.POST, "/products/create"),
   (HttpMethod.POST, "/products/:id/delete")]

/-- Every route the router registers. -/
def routes : List (HttpMethod × String) :=
  apiRoutes ++ htmlRoutes

/-- Handler for `GET /api/products/:id`: 400 on an unparseable id
(before any repository call), 500 on a query error, 404 on the nil
not-found result, 200 otherwise. -/
def GetProductByIDHandler (db : DB) (fault : Option String) (idParam : String) : Nat :=
  match sscanfInt idParam with
  | none => 400
  | some pid =>
    match GetProductByID db fault pid with
    | Except.error _ => 500
    | Except.ok none => 404
    | Except.ok (some _) => 200

/-- Handler for `DELETE /api/products/:id` (Go method
`(s *Server) DeleteById`). Returns the new state, the list of responses
written (each `c.JSON` call appends one status; every branch returns
right after writing), and whether the repository delete was invoked. -/
def DeleteByIdHandler (db : DB) (fault : Option String) (idParam : String) :
    DB × List Nat × Bool :=
  match sscanfInt idParam with
  | none => (db, [400], false)
  | some pid =>
    let r := DeleteById db fault pid
    match r.2 with
    | some _ => (r.1, [502], true)
    | none => (r.1, [200], true)

/-- Handler for `POST /api/products` after a successful JSON bind:
insert, then read the created product back; either failure answers 500,
and only the read-back failure leaves the insert in place. -/
def CreateProductHandler (db : DB) (newId : Int) (insertFault readFault : Bool)
    (input : CreateProductInput) : DB × Nat :=
  match CreateProduct db newId insertFault input with
  | (db1, Except.error _) => (db1, 500)
  | (db1, Except.ok pid) =>
    match GetProductByID db1 (if readFault then some "read failed" else none) pid with
    | Except.error _ => (db1, 500)
    | Except.ok _ => (db1, 201)

/-- Handler for `POST /api/products/with-workshops` after a successful
JSON bind: run the transaction, then read the created product back. -/
def CreateProductWithWorkshopsHandler (db : DB) (newId linkIdBase : Int)
    (txFault : TxFault) (readFault : Bool)
    (input : CreateProductWithWorkshopsInput) : DB × Nat :=
  match CreateProductWithWorkshops db newId linkIdBase txFault input with
  | (db1, Except.error _) => (db1, 500)
  | (db1, Except.ok pid) =>
    match GetProductByID db1 (if readFault then some "read failed" else none) pid with
    | Except.error _ => (db1, 500)
    | Except.ok _ => (db1, 201)

/-- A small concrete database shared by the evaluation witnesses. -/
def dbExample : DB :=
  ⟨[⟨1, "Chair", 10, 20, 5, "A-1"⟩], [], [⟨10, "Wood"⟩], [⟨20, "Furniture"⟩]⟩

theorem mkRat_25_2_eq : mkRat 25 2 = 12.5 := by
  rw [Rat.mkRat_eq_div]
  norm_num

theorem mkRat_2501_2_eq : mkRat 2501 2 = 1250.5 := by
  rw [Rat.mkRat_eq_div]
  norm_num

/-- **C7** `parseDecimal` trims the input, rewrites the comma decimal
separator to a dot and strips interior spaces, so `"12,50"` — also with
surrounding blanks or a thousands space — parses to exactly `12.50`
with no error. -/
theorem parseDecimal_comma_separator :
    parseDecimal "12,50" = Except.ok 12.5 ∧
    parseDecimal "  12,50  " = Except.ok 12.5 ∧
    parseDecimal "1 250,5" = Except.ok 1250.5 := by
  refine ⟨?_, ?_, ?_⟩
  · have h : parseDecimal "12,50" = Except.ok (mkRat 25 2) := by decide
    rw [h, mkRat_25_2_eq]
  · have h : parseDecimal "  12,50  " = Except.ok (mkRat 25 2) := by decide
    rw [h, mkRat_25_2_eq]
  · have h : parseDecimal "1 250,5" = Except.ok (mkRat 2501 2) := by decide
    rw [h, mkRat_2501_2_eq]

/-- **C10 counterexample** the string `","` is empty once spaces and
commas are removed after trimming, yet `parseDecimal` does not return
`0` with no error on it: the comma is rewritten to `"."`, which
`ParseFloat` rejects, so the row would be counted as an error. -/
theorem parseDecimal_comma_only_errors :
    ((goTrimSpace ",").data.filter (fun c => ¬ (c = ' ' ∨ c = ','))) = [] ∧
    parseDecimal "," = Except.error "invalid number" := by
  decide

/-- **C10 amended** for every string whose trimmed content is empty
(the empty cell and all-blank cells — not comma-only cells, which error
instead), `parseDecimal` returns `0` with no error, and an importer row
carrying such a price cell with resolvable names and a working insert
is imported as a product with `min_price` `0` and counted as the one
success of its run, not as a row error. -/
theorem parseDecimal_blank_is_zero (s : String) (h : goTrimSpace s = "") :
    parseDecimal s = Except.ok 0 ∧
    ∀ (mats : List Material) (types : List ProductType) (tn pn ar mn : String)
      (mid tid : Int) (hdr : List String),
      getMaterialID mats (goTrimSpace mn) = Except.ok mid →
      getTypeID types (goTrimSpace tn) = Except.ok tid →
      runImport mats types (fun _ => false) [hdr, [tn, pn, ar, s, mn]] =
        (1, 0, [⟨goTrimSpace pn, mid, tid, 0, goTrimSpace ar⟩]) := by
  have hz : parseDecimal s = Except.ok 0 := by
    unfold parseDecimal
    rw [h]
    decide
  refine ⟨hz, ?_⟩
  intro mats types tn pn ar mn mid tid hdr hm ht
  unfold runImport
  simp [hz, hm, ht, importLoop, processRow, List.getD]

/-- **C2** the repository delete reports the "nothing deleted" failure
whenever the delete statement's affected-row count is zero, whatever the
statement's error value is — in particular on a failing statement (which
both errors and affects zero rows) the caller sees "nothing deleted",
the row-count check having been evaluated first. -/
theorem deleteById_rowcount_precedence (db : DB) (fault : Option String) (pid : Int)
    (m : String) :
    ((execDelete db fault pid).2.rowsAffected = 0 →
      (DeleteById db fault pid).2 = some "nothing deleted") ∧
    (DeleteById db (some m) pid).2 = some "nothing deleted" := by
  constructor
  · intro h
    simp [DeleteById, deleteCheck, h]
  · rfl

/-- **C2 witness** deleting an id absent from the example database
reports "nothing deleted", and so does a delete whose statement errors
while affecting zero rows. -/
theorem deleteById_rowcount_precedence_witness :
    (DeleteById dbExample none 5).2 = some "nothing deleted" ∧
    (DeleteById dbExample (some "connection reset") 1).2 = some "nothing deleted" :=
  ⟨(deleteById_rowcount_precedence dbExample none 5 "x").1 (by decide),
   (deleteById_rowcount_precedence dbExample (some "connection reset") 1
      "connection reset").2⟩

/-- **C8** importer name resolution is case-insensitive exact match:
`getMaterialID` and `getTypeID` succeed exactly when some stored name
equals the input up to letter case, and otherwise report their dedicated
not-found error (no fuzzy matching). -/
theorem name_resolution_case_insensitive (mats : List Material)
    (types : List ProductType) (name : String) :
    ((∃ m ∈ mats, goToLower m.material_name = goToLower name) →
      ∃ i, getMaterialID mats name = Except.ok i) ∧
    ((¬ ∃ m ∈ mats, goToLower m.material_name = goToLower name) →
      getMaterialID mats name = Except.error "material not found") ∧
    ((∃ t ∈ types, goToLower t.type_name = goToLower name) →
      ∃ i, getTypeID types name = Except.ok i) ∧
    ((¬ ∃ t ∈ types, goToLower t.type_name = goToLower name) →
      getTypeID types name = Except.error "type not found") := by
  refine ⟨?_, ?_, ?_, ?_⟩
  · intro hex
    unfold getMaterialID
    cases hf : mats.find? (fun m => goToLower m.material_name = goToLower name) with
    | some m => exact ⟨m.id, rfl⟩
    | none =>
        rcases hex with ⟨m, hm, he⟩
        have := List.find?_eq_none.mp hf m hm
        simp [he] at this
  · intro hnex
    unfold getMaterialID
    cases hf : mats.find? (fun m => goToLower m.material_name = goToLower name) with
    | some m =>
        have hmem := List.mem_of_find?_eq_some hf
        have hprop := List.find?_some hf
        exact absurd ⟨m, hmem, by simpa using hprop⟩ hnex
    | none => rfl
  · intro hex
    unfold getTypeID
    cases hf : types.find? (fun t => goToLower t.type_name = goToLower name) with
    | some t => exact ⟨t.id, rfl⟩
    | none =>
        rcases hex with ⟨t, ht, he⟩
        have := List.find?_eq_none.mp hf t ht
        simp [he] at this
  · intro hnex
    unfold getTypeID
    cases hf : types.find? (fun t => goToLower t.type_name = goToLower name) with
    | some t =>
        have hmem := List.mem_of_find?_eq_some hf
        have hprop := List.find?_some hf
        exact absurd ⟨t, hmem, by simpa using hprop⟩ hnex
    | none => rfl

/-- **C8 witness** `"wOOD"` resolves against stored `"Wood"`, while
`"Steel"` gets the dedicated not-found error; same for type names. -/
theorem name_resolution_case_insensitive_witness :
    (∃ i, getMaterialID [⟨1, "Wood"⟩] "wOOD" = Except.ok i) ∧
    getMaterialID [⟨1, "Wood"⟩] "Steel" = Except.error "material not found" ∧
    (∃ i, getTypeID [⟨2, "Chair"⟩] "chair" = Except.ok i) ∧
    getTypeID [⟨2, "Chair"⟩] "Table" = Except.error "type not found" :=
  ⟨(name_resolution_case_insensitive [⟨1, "Wood"⟩] [⟨2, "Chair"⟩] "wOOD").1 (by decide),
   (name_resolution_case_insensitive [⟨1, "Wood"⟩] [⟨2, "Chair"⟩] "Steel").2.1 (by decide),
   (name_resolution_case_insensitive [⟨1, "Wood"⟩] [⟨2, "Chair"⟩] "chair").2.2.1 (by decide),
   (name_resolution_case_insensitive [⟨1, "Wood"⟩] [⟨2, "Chair"⟩] "Table").2.2.2 (by decide)⟩

theorem importLoop_counts (mats : List Material) (types : List ProductType)
    (faults : Nat → Bool) :
    ∀ (rows : List (List String)) (i : Nat),
      (importLoop mats types faults (i + 1) rows).1 +
        (importLoop mats types faults (i + 1) rows).2.1 = rows.length := by
  intro rows
  induction rows with
  | nil => intro i; simp [importLoop]
  | cons row rest ih =>
      intro i
      have hne : ¬ (i + 1 = 0) := Nat.succ_ne_zero i
      cases hp : processRow mats types (faults (i + 1)) row with
      | some p =>
          simp only [importLoop, hne, if_false, hp]
          have := ih (i + 1)
          simp only [List.length_cons]
          omega
      | none =>
          simp only [importLoop, hne, if_false, hp]
          have := ih (i + 1)
          simp only [List.length_cons]
          omega

/-- **C6** the importer is a best-effort batch: the success and error
counters sum to the number of non-header rows, the header row's content
is irrelevant to the run, a row with fewer than five columns is
rejected, and a failing row adds exactly one error while the loop
carries on with the remaining rows. -/
theorem importer_best_effort (mats : List Material) (types : List ProductType)
    (faults : Nat → Bool) (rows : List (List String)) :
    (runImport mats types faults rows).1 + (runImport mats types faults rows).2.1 =
      rows.tail.length ∧
    (∀ hdr hdr' t, runImport mats types faults (hdr :: t) =
      runImport mats types faults (hdr' :: t)) ∧
    (∀ (row : List String) (f : Bool), row.length < 5 →
      processRow mats types f row = none) ∧
    (∀ (i : Nat) (row : List String) (rest : List (List String)),
      processRow mats types (faults (i + 1)) row = none →
      importLoop mats types faults (i + 1) (row :: rest) =
        ((importLoop mats types faults (i + 1 + 1) rest).1,
         (importLoop mats types faults (i + 1 + 1) rest).2.1 + 1,
         (importLoop mats types faults (i + 1 + 1) rest).2.2)) := by
  refine ⟨?_, ?_, ?_, ?_⟩
  · cases rows with
    | nil => simp [runImport, importLoop]
    | cons hdr t =>
        have h0 : runImport mats types faults (hdr :: t) =
            importLoop mats types faults 1 t := by
          simp [runImport, importLoop]
        rw [h0]
        simpa using importLoop_counts mats types faults t 0
  · intro hdr hdr' t
    simp [runImport, importLoop]
  · intro row f h
    unfold processRow
    simp [h]
  · intro i row rest hp
    have hne : ¬ (i + 1 = 0) := Nat.succ_ne_zero i
    simp [importLoop, hne, hp]

/-- **C6 witness** a concrete four-row workbook: the header is skipped,
the short row and the bad-price row are counted as the two errors, the
good row as the one success, and 1 + 2 is the number of non-header
rows. -/
theorem importer_best_effort_witness :
    (runImport [⟨1, "Wood"⟩] [⟨2, "Chair"⟩] (fun _ => false)
        [["h"], ["a", "b", "c", "d"], ["chair", "Stool", "S-1", "x", "WOOD"],
         ["chair", "Stool", "S-1", "1", "WOOD"]]).1 +
      (runImport [⟨1, "Wood"⟩] [⟨2, "Chair"⟩] (fun _ => false)
        [["h"], ["a", "b", "c", "d"], ["chair", "Stool", "S-1", "x", "WOOD"],
         ["chair", "Stool", "S-1", "1", "WOOD"]]).2.1 = 3 ∧
    processRow [⟨1, "Wood"⟩] [⟨2, "Chair"⟩] false ["a", "b", "c", "d"] = none :=
  ⟨((importer_best_effort [⟨1, "Wood"⟩] [⟨2, "Chair"⟩] (fun _ => false)
      [["h"], ["a", "b", "c", "d"], ["chair", "Stool", "S-1", "x", "WOOD"],
       ["chair", "Stool", "S-1", "1", "WOOD"]]).1).trans (by decide),
   (importer_best_effort [⟨1, "Wood"⟩] [⟨2, "Chair"⟩] (fun _ => false) []).2.2.1
      ["a", "b", "c", "d"] false (by decide)⟩

/-- **C5** the point lookup returns the `(nil, nil)` not-found signal —
distinct from an error — exactly on identifiers matching no product row,
while an injected query failure comes back as an error; the handler maps
the former to 404 and the latter to 500. -/
theorem getProductByID_notFound_distinct (db : DB) (pid : Int) (m : String)
    (idParam : String) :
    ((∀ p ∈ db.products, ¬ p.id = pid) → GetProductByID db none pid = Except.ok none) ∧
    GetProductByID db (some m) pid = Except.error m ∧
    (sscanfInt idParam = some pid →
      ((∀ p ∈ db.products, ¬ p.id = pid) → GetProductByIDHandler db none idParam = 404) ∧
      GetProductByIDHandler db (some m) idParam = 500) := by
  have hq : (∀ p ∈ db.products, ¬ p.id = pid) → productQueryRows db pid = [] := by
    intro hne
    unfold productQueryRows
    have hfil : db.products.filter (fun p => p.id = pid) = [] := by
      rw [List.filter_eq_nil_iff]
      intro a ha
      simpa using hne a ha
    rw [hfil]
    rfl
  refine ⟨?_, rfl, ?_⟩
  · intro hne
    unfold GetProductByID
    rw [hq hne]
    rfl
  · intro hp
    constructor
    · intro hne
      simp [GetProductByIDHandler, hp, GetProductByID, hq hne]
    · simp [GetProductByIDHandler, hp, GetProductByID]

/-- **C5 witness** id 2 is absent from the example database: the lookup
answers `ok none` and the handler 404; with an injected query failure
the lookup answers the error and the handler 500. -/
theorem getProductByID_notFound_distinct_witness :
    GetProductByID dbExample none 2 = Except.ok none ∧
    GetProductByID dbExample (some "boom") 2 = Except.error "boom" ∧
    GetProductByIDHandler dbExample none "2" = 404 ∧
    GetProductByIDHandler dbExample (some "boom") "2" = 500 :=
  ⟨(getProductByID_notFound_distinct dbExample 2 "boom" "2").1 (by decide),
   (getProductByID_notFound_distinct dbExample 2 "boom" "2").2.1,
   ((getProductByID_notFound_distinct dbExample 2 "boom" "2").2.2 (by decide)).1
      (by decide),
   ((getProductByID_notFound_distinct dbExample 2 "boom" "2").2.2 (by decide)).2⟩

/-- **C3** the router's only DELETE route is `/api/products/:id`, and
the handler writes exactly one response: 400 on an unparseable id
without invoking the repository, 502 when the repository delete fails,
200 when it succeeds. -/
theorem delete_route_and_handler (db : DB) (fault : Option String) (idParam : String) :
    routes.filter (fun r => r.1 = HttpMethod.DELETE) =
      [(HttpMethod.DELETE, "/api/products/:id")] ∧
    (DeleteByIdHandler db fault idParam).2.1.length = 1 ∧
    (sscanfInt idParam = none →
      DeleteByIdHandler db fault idParam = (db, [400], false)) ∧
    (∀ pid, sscanfInt idParam = some pid →
      ((∃ e, (DeleteById db fault pid).2 = some e) →
        (DeleteByIdHandler db fault idParam).2 = ([502], true)) ∧
      ((DeleteById db fault pid).2 = none →
        (DeleteByIdHandler db fault idParam).2 = ([200], true))) := by
  refine ⟨by decide, ?_, ?_, ?_⟩
  · unfold DeleteByIdHandler
    cases hs : sscanfInt idParam with
    | none => rfl
    | some pid =>
        cases hd : (DeleteById db fault pid).2 with
        | some e => simp [hd]
        | none => simp [hd]
  · intro hs
    unfold DeleteByIdHandler
    rw [hs]
  · intro pid hs
    constructor
    · rintro ⟨e, he⟩
      unfold DeleteByIdHandler
      rw [hs]
      simp [he]
    · intro he
      unfold DeleteByIdHandler
      rw [hs]
      simp [he]

/-- **C3 witness** on the example database: a non-numeric id answers a
single 400 without touching the repository, a failing delete a single
502, a successful delete a single 200. -/
theorem delete_route_and_handler_witness :
    DeleteByIdHandler dbExample none "abc" = (dbExample, [400], false) ∧
    (DeleteByIdHandler dbExample (some "boom") "1").2 = ([502], true) ∧
    (DeleteByIdHandler dbExample none "1").2 = ([200], true) :=
  ⟨(delete_route_and_handler dbExample none "abc").2.2.1 (by decide),
   ((delete_route_and_handler dbExample (some "boom") "1").2.2.2 1 (by decide)).1
      ⟨"nothing deleted", by decide⟩,
   ((delete_route_and_handler dbExample none "1").2.2.2 1 (by decide)).2 (by decide)⟩

theorem mem_insertById (x r : ProductWithTime) :
    ∀ (l : List ProductWithTime), x ∈ insertById r l ↔ x = r ∨ x ∈ l := by
  intro l
  induction l with
  | nil => simp [insertById]
  | cons a as ih =>
      by_cases h : r.id ≤ a.id
      · simp [insertById, h]
      · simp [insertById, h, ih]
        tauto

theorem mem_sortById (x : ProductWithTime) :
    ∀ (l : List ProductWithTime), x ∈ sortById l ↔ x ∈ l := by
  intro l
  induction l with
  | nil => simp [sortById]
  | cons a as ih =>
      have hstep : sortById (a :: as) = insertById a (sortById as) := rfl
      rw [hstep, mem_insertById]
      simp [ih]

theorem rowTotal_eq_sum (links : List PWLink) (pid : Int) :
    coalesceQ (sqlSum ((leftJoinLinks links pid).map
        (fun o => o.map (fun l => l.production_time)))) 0 =
      ((links.filter (fun l => l.product_id = pid)).map
        (fun l => l.production_time)).sum := by
  unfold leftJoinLinks sqlSum coalesceQ
  cases h : links.filter (fun l => l.product_id = pid) with
  | nil => simp [h]
  | cons a as =>
      simp [h, List.map_map, List.filterMap_map, Function.comp_def]
      have hfm : (fun (x : PWLink) => some x.production_time) =
          some ∘ (fun (x : PWLink) => x.production_time) := rfl
      rw [hfm, List.filterMap_eq_map]

theorem rowFor_total (db : DB) (p : Product) (r : ProductWithTime)
    (h : rowFor db p = some r) :
    r.id = p.id ∧
    r.total_production_time =
      ((db.links.filter (fun l => l.product_id = p.id)).map
        (fun l => l.production_time)).sum := by
  unfold rowFor at h
  cases hm : db.materials.find? (fun m => m.id = p.material_id) with
  | none => rw [hm] at h; cases h
  | some m =>
      cases ht : db.productTypes.find? (fun t => t.id = p.type_id) with
      | none => rw [hm, ht] at h; cases h
      | some t =>
          rw [hm, ht] at h
          cases h
          exact ⟨rfl, rowTotal_eq_sum db.links p.id⟩

/-- **C4** in both the list read and the point lookup, every returned
row's `total_production_time` equals the sum of the `production_time`
values of that product's links, and in particular equals `0` (not a
null/absent value) for a product with zero links. -/
theorem totalProductionTime_eq_sum (db : DB) (r : ProductWithTime) (pid : Int) :
    (r ∈ GetAllProducts db →
      r.total_production_time =
        ((db.links.filter (fun l => l.product_id = r.id)).map
          (fun l => l.production_time)).sum ∧
      (db.links.filter (fun l => l.product_id = r.id) = [] →
        r.total_production_time = 0)) ∧
    (GetProductByID db none pid = Except.ok (some r) →
      r.total_production_time =
        ((db.links.filter (fun l => l.product_id = r.id)).map
          (fun l => l.production_time)).sum) := by
  have core : ∀ (p : Product), rowFor db p = some r →
      r.total_production_time =
        ((db.links.filter (fun l => l.product_id = r.id)).map
          (fun l => l.production_time)).sum := by
    intro p hp
    rcases rowFor_total db p r hp with ⟨hid, htot⟩
    rw [hid]
    exact htot
  constructor
  · intro hmem
    have hmem2 : r ∈ db.products.filterMap (rowFor db) :=
      (mem_sortById r (db.products.filterMap (rowFor db))).mp hmem
    rcases List.mem_filterMap.mp hmem2 with ⟨p, _, hp⟩
    refine ⟨core p hp, ?_⟩
    intro hnil
    rw [core p hp, hnil]
    rfl
  · intro hok
    unfold GetProductByID at hok
    cases hh : (productQueryRows db pid).head? with
    | none => rw [hh] at hok; cases hok
    | some r' =>
        rw [hh] at hok
        cases hok
        have hmem : r ∈ productQueryRows db pid := List.mem_of_mem_head? hh
        unfold productQueryRows at hmem
        rcases List.mem_filterMap.mp hmem with ⟨p, _, hp⟩
        exact core p hp

/-- Database for the aggregation witness: one product with two links of
2.5 and 3.5 hours. -/
def dbAgg : DB :=
  ⟨[⟨1, "Chair", 10, 20, 5, "A-1"⟩],
   [⟨100, 1, 7, 2.5⟩, ⟨101, 1, 8, 3.5⟩],
   [⟨10, "Wood"⟩], [⟨20, "Furniture"⟩]⟩

/-- The aggregation row the witness expects for `dbAgg`. -/
def rowAgg : ProductWithTime :=
  ⟨1, "Chair", "Wood", "Furniture", 5, "A-1", [(2.5 : ℚ), 3.5].sum⟩

/-- **C4 witness** the spec's example: link times 2.5 and 3.5 aggregate
to a `total_production_time` of exactly 6; and on the link-free example
database the total is 0, via the theorem's zero-links clause. -/
theorem totalProductionTime_eq_sum_witness :
    rowAgg ∈ GetAllProducts dbAgg ∧
    rowAgg.total_production_time =
      ((dbAgg.links.filter (fun l => l.product_id = rowAgg.id)).map
        (fun l => l.production_time)).sum ∧
    rowAgg.total_production_time = 6 ∧
    (⟨1, "Chair", "Wood", "Furniture", 5, "A-1", 0⟩ : ProductWithTime).total_production_time
      = 0 := by
  have hlist : GetAllProducts dbAgg = [rowAgg] := rfl
  have hmem : rowAgg ∈ GetAllProducts dbAgg := by
    rw [hlist]
    exact List.mem_singleton_self rowAgg
  have hzmem : (⟨1, "Chair", "Wood", "Furniture", 5, "A-1", 0⟩ : ProductWithTime) ∈
      GetAllProducts dbExample := by decide
  refine ⟨hmem, ((totalProductionTime_eq_sum dbAgg rowAgg 1).1 hmem).1, ?_, ?_⟩
  · show ([(2.5 : ℚ), 3.5]).sum = 6
    simp [List.sum_cons, List.sum_nil]
    norm_num
  · exact ((totalProductionTime_eq_sum dbExample
      ⟨1, "Chair", "Wood", "Furniture", 5, "A-1", 0⟩ 1).1 hzmem).2 (by decide)

theorem insertLinks_no_linkfault (fault : TxFault) (base pid : Int)
    (hf : ∀ j, ¬ fault = TxFault.linkInsertFail j) :
    ∀ (ws : List WorkshopInput) (k : Nat),
      ∃ ls, insertLinks fault base pid k ws = Except.ok ls ∧
        ls.length = ws.length ∧ ∀ l ∈ ls, l.product_id = pid := by
  intro ws
  induction ws with
  | nil => intro k; exact ⟨[], rfl, rfl, by simp⟩
  | cons w rest ih =>
      intro k
      rcases ih (k + 1) with ⟨ls, hls, hlen, hpid⟩
      refine ⟨⟨base + (k : Int), pid, w.workshop_id, w.production_time⟩ :: ls, ?_, ?_, ?_⟩
      · simp [insertLinks, hf k, hls]
      · simp [hlen]
      · intro l hl
        rcases List.mem_cons.mp hl with hh | hh
        · rw [hh]
        · exact hpid l hh

theorem insertLinks_spec (fault : TxFault) (base pid : Int) :
    ∀ (ws : List WorkshopInput) (k : Nat),
      (∃ m, insertLinks fault base pid k ws = Except.error m) ∨
      (∃ ls, insertLinks fault base pid k ws = Except.ok ls ∧
        ls.length = ws.length ∧ ∀ l ∈ ls, l.product_id = pid) := by
  intro ws
  induction ws with
  | nil => intro k; exact Or.inr ⟨[], rfl, rfl, by simp⟩
  | cons w rest ih =>
      intro k
      by_cases hf : fault = TxFault.linkInsertFail k
      · exact Or.inl ⟨"link insert failed", by simp [insertLinks, hf]⟩
      · rcases ih (k + 1) with ⟨m, hm⟩ | ⟨ls, hls, hlen, hpid⟩
        · exact Or.inl ⟨m, by simp [insertLinks, hf, hm]⟩
        · refine Or.inr ⟨⟨base + (k : Int), pid, w.workshop_id, w.production_time⟩ :: ls,
            by simp [insertLinks, hf, hls], by simp [hlen], ?_⟩
          intro l hl
          rcases List.mem_cons.mp hl with hh | hh
          · rw [hh]
          · exact hpid l hh

theorem insertLinks_hits_fault (base pid : Int) :
    ∀ (ws : List WorkshopInput) (j k : Nat), j ≤ k → k < j + ws.length →
      insertLinks (TxFault.linkInsertFail k) base pid j ws =
        Except.error "link insert failed" := by
  intro ws
  induction ws with
  | nil =>
      intro j k h1 h2
      simp at h2
      omega
  | cons w rest ih =>
      intro j k h1 h2
      by_cases hjk : j = k
      · simp [insertLinks, hjk]
      · have hle : j + 1 ≤ k := by omega
        have hlt : k < (j + 1) + rest.length := by
          simp at h2
          omega
        have hne : ¬ (TxFault.linkInsertFail k = TxFault.linkInsertFail j) := by
          simp
          omega
        simp [insertLinks, hne, ih (j + 1) k hle hlt]

/-- **C1** the write path is atomic: for every failure schedule, either
the call succeeds and the persisted state gains exactly the one product
row plus one link row per supplied workshop pair (all scoped to the new
product id), or the call reports an error and the persisted state is
exactly the prior one — in particular when the run is fault-free it
succeeds, and when the product insert, any reachable link insert, the
begin or the commit fails, nothing is persisted. -/
theorem createProductWithWorkshops_atomic (db : DB) (newId linkIdBase : Int)
    (fault : TxFault) (input : CreateProductWithWorkshopsInput) :
    ((∃ ls,
        CreateProductWithWorkshops db newId linkIdBase fault input =
          ({ db with
              products := db.products ++ [⟨newId, input.product_name, input.material_id,
                input.type_id, input.min_price, input.article⟩],
              links := db.links ++ ls }, Except.ok newId) ∧
        ls.length = input.workshops.length ∧ ∀ l ∈ ls, l.product_id = newId) ∨
      ((∃ m, (CreateProductWithWorkshops db newId linkIdBase fault input).2 =
          Except.error m) ∧
        (CreateProductWithWorkshops db newId linkIdBase fault input).1 = db)) ∧
    (fault = TxFault.ok →
      (CreateProductWithWorkshops db newId linkIdBase fault input).2 =
        Except.ok newId) ∧
    (∀ k, fault = TxFault.linkInsertFail k → k < input.workshops.length →
      (CreateProductWithWorkshops db newId linkIdBase fault input).1 = db ∧
      ∃ m, (CreateProductWithWorkshops db newId linkIdBase fault input).2 =
        Except.error m) ∧
    ((fault = TxFault.beginFail ∨ fault = TxFault.productInsertFail ∨
        fault = TxFault.commitFail) →
      (CreateProductWithWorkshops db newId linkIdBase fault input).1 = db ∧
      ∃ m, (CreateProductWithWorkshops db newId linkIdBase fault input).2 =
        Except.error m) := by
  refine ⟨?_, ?_, ?_, ?_⟩
  · by_cases hb : fault = TxFault.beginFail
    · exact Or.inr ⟨⟨"begin failed", by simp [CreateProductWithWorkshops, hb]⟩,
        by simp [CreateProductWithWorkshops, hb]⟩
    · by_cases hp : fault = TxFault.productInsertFail
      · exact Or.inr ⟨⟨"product insert failed",
          by simp [CreateProductWithWorkshops, hb, hp]⟩,
          by simp [CreateProductWithWorkshops, hb, hp]⟩
      · rcases insertLinks_spec fault linkIdBase newId input.workshops 0 with
          ⟨m, hm⟩ | ⟨ls, hls, hlen, hpid⟩
        · exact Or.inr ⟨⟨m, by simp [CreateProductWithWorkshops, hb, hp, hm]⟩,
            by simp [CreateProductWithWorkshops, hb, hp, hm]⟩
        · by_cases hc : fault = TxFault.commitFail
          · subst hc
            exact Or.inr ⟨⟨"commit failed",
              by simp [CreateProductWithWorkshops, hls]⟩,
              by simp [CreateProductWithWorkshops, hls]⟩
          · exact Or.inl ⟨ls,
              by simp [CreateProductWithWorkshops, hb, hp, hc, hls], hlen, hpid⟩
  · intro h
    subst h
    rcases insertLinks_no_linkfault TxFault.ok linkIdBase newId (by simp)
        input.workshops 0 with ⟨ls, hls, _, _⟩
    simp [CreateProductWithWorkshops, hls]
  · intro k hk hlt
    subst hk
    have herr := insertLinks_hits_fault linkIdBase newId input.workshops 0 k
      (Nat.zero_le k) (by simpa using hlt)
    constructor
    · simp [CreateProductWithWorkshops, herr]
    · exact ⟨"link insert failed", by simp [CreateProductWithWorkshops, herr]⟩
  · intro h
    rcases h with hb | hp | hc
    · subst hb
      exact ⟨by simp [CreateProductWithWorkshops],
        ⟨"begin failed", by simp [CreateProductWithWorkshops]⟩⟩
    · subst hp
      exact ⟨by simp [CreateProductWithWorkshops],
        ⟨"product insert failed", by simp [CreateProductWithWorkshops]⟩⟩
    · subst hc
      rcases insertLinks_no_linkfault TxFault.commitFail linkIdBase newId (by simp)
          input.workshops 0 with ⟨ls, hls, _, _⟩
      exact ⟨by simp [CreateProductWithWorkshops, hls],
        ⟨"commit failed", by simp [CreateProductWithWorkshops, hls]⟩⟩

/-- **C1 witness** on the example database: a fault-free run with one
workshop pair succeeds, and the same run with the first link insert
failing leaves the persisted state untouched. -/
theorem createProductWithWorkshops_atomic_witness :
    (CreateProductWithWorkshops dbExample 2 100 TxFault.ok
        ⟨"Table", 10, 20, 9, "T-1", [⟨7, 2⟩]⟩).2 = Except.ok 2 ∧
    (CreateProductWithWorkshops dbExample 2 100 (TxFault.linkInsertFail 0)
        ⟨"Table", 10, 20, 9, "T-1", [⟨7, 2⟩]⟩).1 = dbExample :=
  ⟨(createProductWithWorkshops_atomic dbExample 2 100 TxFault.ok
      ⟨"Table", 10, 20, 9, "T-1", [⟨7, 2⟩]⟩).2.1 rfl,
   ((createProductWithWorkshops_atomic dbExample 2 100 (TxFault.linkInsertFail 0)
      ⟨"Table", 10, 20, 9, "T-1", [⟨7, 2⟩]⟩).2.2.1 0 rfl (by decide)).1⟩

/-- **C9** a 500 answer from the create handlers does not imply the
product was not created: with a successful insert (and, on the
with-workshops path, a successful commit) followed by a failing
read-back, both handlers answer 500 while the new product row — and the
full link set on the with-workshops path — stays persisted. -/
theorem http500_after_insert_leaves_row (db : DB) (newId linkIdBase : Int)
    (input : CreateProductInput) (inputW : CreateProductWithWorkshopsInput) :
    (CreateProductHandler db newId false true input).2 = 500 ∧
    (CreateProductHandler db newId false true input).1.products =
      db.products ++ [⟨newId, input.product_name, input.material_id, input.type_id,
        input.min_price, input.article⟩] ∧
    (CreateProductWithWorkshopsHandler db newId linkIdBase TxFault.ok true inputW).2
      = 500 ∧
    (∃ ls,
      (CreateProductWithWorkshopsHandler db newId linkIdBase TxFault.ok true inputW).1 =
        { db with
            products := db.products ++ [⟨newId, inputW.product_name, inputW.material_id,
              inputW.type_id, inputW.min_price, inputW.article⟩],
            links := db.links ++ ls } ∧
      ls.length = inputW.workshops.length) := by
  rcases insertLinks_no_linkfault TxFault.ok linkIdBase newId (by simp)
      inputW.workshops 0 with ⟨ls, hls, hlen, _⟩
  have hcpw : CreateProductWithWorkshops db newId linkIdBase TxFault.ok inputW =
      ({ db with
          products := db.products ++ [⟨newId, inputW.product_name, inputW.material_id,
            inputW.type_id, inputW.min_price, inputW.article⟩],
          links := db.links ++ ls }, Except.ok newId) := by
    simp [CreateProductWithWorkshops, hls]
  refine ⟨?_, ?_, ?_, ⟨ls, ?_, hlen⟩⟩
  · simp [CreateProductHandler, CreateProduct, GetProductByID]
  · simp [CreateProductHandler, CreateProduct, GetProductByID]
  · simp [CreateProductWithWorkshopsHandler, hcpw, GetProductByID]
  · simp [CreateProductWithWorkshopsHandler, hcpw, GetProductByID]

/-- **C10 amended witness** the all-blank price cell `"  "` parses to
`0` with no error, and a concrete one-row workbook carrying it is
imported as one success with `min_price` `0`. -/
theorem parseDecimal_blank_is_zero_witness :
    parseDecimal "  " = Except.ok 0 ∧
    runImport [⟨1, "Wood"⟩] [⟨2, "Chair"⟩] (fun _ => false)
        [["h"], ["Chair", "Stool", "S-1", "  ", "wood"]] =
      (1, 0, [⟨"Stool", 1, 2, 0, "S-1"⟩]) :=
  ⟨(parseDecimal_blank_is_zero "  " (by decide)).1,
   ((parseDecimal_blank_is_zero "  " (by decide)).2 [⟨1, "Wood"⟩] [⟨2, "Chair"⟩]
      "Chair" "Stool" "S-1" "wood" 1 2 ["h"] (by decide) (by decide)).trans
     (by decide)⟩
